import Mathlib

/-!
# FEE-Club: authentication gate, registration, login and reservation intake

A shallow embedding of `src/middlewares/auth.js` and `src/api/apiRoutes.js`.

* A handler's response is the list of calls it makes on `res`, in order;
  `sentStatus` is the status code Express sends for such a list.
* A `req.body` field is a JavaScript value: `undefined`, `null`, a boolean, a
  number, a string, or an array or object. The `Authorization` header and the
  `token` cookie are absent or a string.
* The stores are lists of records; what the handlers get from `bcrypt`,
  `jsonwebtoken` and from the stores' `save` is taken as a parameter, and so
  is a rejection of `User.findById` inside `protect`.
-/

namespace FEEClub

/-! ## JavaScript values used by the handlers -/

/-- A value of a parsed request body. Numbers are the integers, which is
enough for the zero test of `!v`; an array or object carries its `length`
property, when it has a numeric one, and the string it converts to. -/
inductive JSValue
  | undefined
  | null
  | bool (b : Bool)
  | number (n : Int)
  | str (s : String)
  | object (length : Option Int) (text : String)
deriving DecidableEq, Repr

/-- JavaScript truthiness: `!v` is `!truthy v`. -/
def truthy : JSValue → Bool
  | .undefined => false
  | .null => false
  | .bool b => b
  | .number n => decide (n ≠ 0)
  | .str s => decide (s ≠ "")
  | .object _ _ => true

/-- Number of UTF-16 code units of one character. -/
def utf16Units (c : Char) : Nat :=
  if c.toNat < 65536 then 1 else 2

/-- The `length` of a JavaScript string: its number of UTF-16 code units. -/
def jsLength (s : String) : Nat :=
  (s.data.map utf16Units).sum

/-- The test `v.length < k` for a value that is not `undefined` or `null`: a
boolean or a number has no `length`, and `undefined < k` is false. -/
def lengthBelow (v : JSValue) (k : Nat) : Bool :=
  match v with
  | .str s => decide (jsLength s < k)
  | .object (some n) _ => decide (n < (k : Int))
  | _ => false

/-- The string a value becomes inside a template literal. -/
def jsToString : JSValue → String
  | .undefined => "undefined"
  | .null => "null"
  | .bool true => "true"
  | .bool false => "false"
  | .number n => toString n
  | .str s => s
  | .object _ text => text

/-- A header or cookie value: absent, or a string. -/
abbrev Header := Option String

/-- JavaScript truthiness of a header or cookie value. -/
def present : Header → Bool
  | none => false
  | some s => decide (s ≠ "")

/-- The pieces of `cs.split(sep)` for a one-character separator, with the
piece being read in `cur` (reversed). -/
def splitAux (sep : Char) : List Char → List Char → List (List Char)
  | [], cur => [cur.reverse]
  | c :: cs, cur =>
    if c = sep then cur.reverse :: splitAux sep cs []
    else splitAux sep cs (c :: cur)

/-- The pieces of `s.split(sep)` for a one-character separator. -/
def jsSplit (s : String) (sep : Char) : List String :=
  (splitAux sep s.data []).map String.mk

/-- The test `s.startsWith(p)`. -/
def jsStartsWith (s p : String) : Bool :=
  p.data.isPrefixOf s.data

/-! ## Responses: the calls a handler makes on `res` -/

/-- Options of `res.cookie`. -/
structure CookieOptions where
  httpOnly : Bool
  secure : Bool
  maxAge : Nat
  sameSite : String
deriving DecidableEq, Repr

/-- One call on the response object. -/
inductive ResCall
  | status (code : Nat)
  | render (view : String) (locals : List (String × String))
  | json (body : List (String × String))
  | redirect (url : String)
  | cookie (name value : String) (options : CookieOptions)
  | clearCookie (name : String)
deriving DecidableEq, Repr

/-- A response: the calls made on `res`, in order. -/
abbrev Response := List ResCall

/-- A `console.error` line: its label and the error it prints. -/
abbrev LogLine := String × String

/-- Whether a response sets a cookie. -/
def setsCookie (r : Response) : Bool :=
  r.any fun c => match c with
    | .cookie _ _ _ => true
    | _ => false

/-- The status code Express sends for a list of calls on `res`: it starts at
200, `res.status(n)` sets it to `n`, and `res.redirect(url)`, called with the
url alone, sets it to 302 whatever it was. -/
def sentStatus (r : Response) : Nat :=
  r.foldl (fun code c => match c with
    | .status n => n
    | .redirect _ => 302
    | _ => code) 200

/-! ## Credential Store -/

/-- A stored user; `name` and `email` are kept as they were handed to
`new User`. -/
structure User where
  id : Nat
  name : JSValue
  email : JSValue
  password : String
deriving DecidableEq, Repr

/-- A user as returned by `.select('-password')`. -/
structure UserView where
  id : Nat
  name : JSValue
  email : JSValue
deriving DecidableEq, Repr

/-- The projection `.select('-password')`. -/
def User.selectNoPassword (u : User) : UserView :=
  ⟨u.id, u.name, u.email⟩

/-- Modelled from the spec: the Credential Store's find-by-key on the email
(`models/user` is not among the sources). The store is the list of its
records; the first record whose email is the key is found. -/
def findOne (users : List User) (email : JSValue) : Option User :=
  users.find? fun u => decide (u.email = email)

/-- Modelled from the spec: the Credential Store's find-by-key on the
identity (`models/user` is not among the sources). -/
def findById (users : List User) (id : Nat) : Option User :=
  users.find? fun u => decide (u.id = id)

/-- The identity claims a token carries: `{ id, email, name }`. -/
structure Claims where
  id : Nat
  email : JSValue
  name : JSValue
deriving DecidableEq, Repr

/-! ## Auth Gate: `protect` (src/middlewares/auth.js) -/

/-- The object `req.cookies`. -/
structure Cookies where
  token : Header
deriving DecidableEq, Repr

/-- What `protect` reads of a request. -/
structure Request where
  authorization : Header
  cookies : Option Cookies
deriving DecidableEq, Repr

/-- The `else if (req.cookies && req.cookies.token)` branch. -/
def cookieToken (req : Request) : Header :=
  match req.cookies with
  | none => none
  | some c => if present c.token then c.token else none

/-- The value of `token` after lines 15-21 of `protect`. -/
def locateToken (req : Request) : Header :=
  match req.authorization with
  | none => cookieToken req
  | some a =>
    if present (some a) && jsStartsWith a "Bearer" then (jsSplit a ' ')[1]?
    else cookieToken req

/-- What `protect` leaves behind: the calls on `res`, `req.user`, whether
`next` was called, and what was logged. -/
structure GateOutcome where
  response : Response
  user : Option UserView
  nextCalled : Bool
  log : List LogLine
deriving DecidableEq, Repr

/-- A rejection of `protect`: the calls `res.status(401).redirect(url)`, as
written; what Express sends for them is `sentStatus`. -/
def reject (url : String) (log : List LogLine) : GateOutcome :=
  ⟨[.status 401, .redirect url], none, false, log⟩

/-- The middleware `protect`. `verify t` is `jwt.verify(t, process.env.JWT_SECRET)`,
an error standing for a throw; `findByIdError id` is `some e` when
`await User.findById(id)` rejects with `e`. Both throws land in the `catch` of
lines 39-42. -/
def protect (verify : String → Except String Claims) (findByIdError : Nat → Option String)
    (users : List User) (req : Request) : GateOutcome :=
  match locateToken req with
  | none => reject "/?error=unauthorized" []
  | some token =>
    if token = "" then reject "/?error=unauthorized" []
    else
      match verify token with
      | .error msg => reject "/?error=token_error" [("Authentication error:", msg)]
      | .ok decoded =>
        match findByIdError decoded.id with
        | some msg => reject "/?error=token_error" [("Authentication error:", msg)]
        | none =>
          match findById users decoded.id with
          | none => reject "/?error=invalid_user" []
          | some user => ⟨[], some user.selectNoPassword, true, []⟩

/-! ## Login and logout (src/api/apiRoutes.js) -/

/-- The body of `POST /login`. -/
structure LoginBody where
  email : JSValue
  password : JSValue
deriving DecidableEq, Repr

/-- What `POST /login` takes from outside the repository: `bcrypt.compare`
(an error standing for a rejection), `jwt.sign(payload, JWT_SECRET,
{ expiresIn })` as a function of the payload and of `expiresIn`, and whether
`NODE_ENV` is `production`. -/
structure LoginEnv where
  compare : JSValue → String → Except String Bool
  sign : Claims → String → String
  production : Bool

/-- What a handler without a store effect leaves behind. -/
structure HandlerResult where
  response : Response
  log : List LogLine
deriving DecidableEq, Repr

/-- The payload `{ id: user._id, email: user.email, name: user.name }` (line 29). -/
def loginPayload (user : User) : Claims :=
  ⟨user.id, user.email, user.name⟩

/-- The token `POST /login` signs for a stored user (lines 28-32). -/
def loginToken (env : LoginEnv) (user : User) : String :=
  env.sign (loginPayload user) "1d"

/-- The handler of `POST /login`. -/
def postLogin (env : LoginEnv) (users : List User) (body : LoginBody) : HandlerResult :=
  match findOne users body.email with
  | none => ⟨[.status 401, .render "login" [("error", "Invalid email or password")]], []⟩
  | some user =>
    match env.compare body.password user.password with
    | .error e =>
      ⟨[.status 500, .render "login" [("error", "Server error occurred. Please try again.")]],
        [("Login error:", e)]⟩
    | .ok false => ⟨[.status 401, .render "login" [("error", "Invalid email or password")]], []⟩
    | .ok true =>
      ⟨[.cookie "token" (loginToken env user)
          ⟨true, env.production, 24 * 60 * 60 * 1000, "strict"⟩,
        .status 302, .redirect "/api/dashboard"], []⟩

/-- The handler of `GET /logout`. -/
def getLogout : Response :=
  [.clearCookie "token", .redirect "/"]

/-! ## Registration -/

/-- The body of `POST /register`. -/
structure RegisterBody where
  name : JSValue
  email : JSValue
  password : JSValue
deriving DecidableEq, Repr

/-- What `POST /register` takes from outside the repository: `bcrypt.genSalt`
(the salt this request is given for a number of rounds), `bcrypt.hash` on a
string, the identity given to the new document, and the outcome of
`user.save()` (`some e`: it rejects with `e`). -/
structure RegisterEnv where
  genSalt : Nat → String
  hash : String → String → String
  newId : Nat
  saveError : User → Option String

/-- What `POST /register` leaves behind. -/
structure RegisterResult where
  users : List User
  response : Response
  log : List LogLine
deriving DecidableEq, Repr

/-- The handler of `POST /register`. A password that passed the checks of
lines 56-66 without being a string makes `bcrypt.hash` reject, which lands in
the `catch` of line 93. -/
def postRegister (env : RegisterEnv) (users : List User) (body : RegisterBody) :
    RegisterResult :=
  if !truthy body.name || !truthy body.email || !truthy body.password then
    ⟨users, [.status 400, .render "register" [("error", "All fields are required")]], []⟩
  else if lengthBelow body.password 6 then
    ⟨users, [.status 400,
      .render "register" [("error", "Password must be at least 6 characters long")]], []⟩
  else
    match findOne users body.email with
    | some _ =>
      ⟨users, [.status 400,
        .render "register" [("error", "User already exists with this email")]], []⟩
    | none =>
      match body.password with
      | .str password =>
        match env.saveError
            ⟨env.newId, body.name, body.email, env.hash password (env.genSalt 10)⟩ with
        | some e =>
          ⟨users, [.status 500,
            .render "register" [("error", "Server error occurred. Please try again.")]],
            [("Registration error:", e)]⟩
        | none =>
          ⟨users ++ [⟨env.newId, body.name, body.email, env.hash password (env.genSalt 10)⟩],
            [.status 201,
              .render "login" [("success", "Registration successful! Please login.")]], []⟩
      | _ =>
        ⟨users, [.status 500,
          .render "register" [("error", "Server error occurred. Please try again.")]],
          [("Registration error:", "data must be a string or Buffer and salt must " ++
            "either be a salt string or a number of rounds")]⟩

/-! ## Reservation intake -/

/-- The body of `POST /reservations`. -/
structure ReservationBody where
  name : JSValue
  email : JSValue
  phone : JSValue
  date : JSValue
  time : JSValue
  guests : JSValue
  specialRequests : JSValue
  club : JSValue
  clubLocation : JSValue
deriving DecidableEq, Repr

/-- A reservation record, as handed to `new Reservation`. -/
structure Reservation where
  name : JSValue
  email : JSValue
  phone : JSValue
  date : JSValue
  time : JSValue
  guests : JSValue
  specialRequests : JSValue
  club : JSValue
  clubLocation : JSValue
deriving DecidableEq, Repr

/-- The message handed to `transporter.sendMail`; `fromAddr` and `toAddr` are its
`from` and `to`. -/
structure MailOptions where
  fromAddr : Header
  toAddr : JSValue
  subject : String
  html : String
deriving DecidableEq, Repr

/-- The expression `v || d` inside a template literal. -/
def orElse (v : JSValue) (d : String) : String :=
  if truthy v then jsToString v else d

/-- The `mailOptions` of lines 128-139; `emailUser` is `process.env.EMAIL_USER`. -/
def mailOptions (emailUser : Header) (name email club date time guests
    specialRequests clubLocation : JSValue) : MailOptions :=
  { fromAddr := emailUser
    toAddr := email
    subject := "Your Table Reservation at " ++ jsToString club
    html := "<h2>Thank you for booking with Club-Verse!</h2>\n" ++
      "        <p>Hi " ++ jsToString name ++ ",</p>\n" ++
      "        <p>Your reservation at <b>" ++ jsToString club ++
      "</b> is confirmed for <b>" ++ jsToString date ++
      "</b> at <b>" ++ jsToString time ++ "</b> for <b>" ++ jsToString guests ++
      "</b> guest(s).</p>\n" ++
      "        <p>Location: " ++ orElse clubLocation "" ++ "</p>\n" ++
      "        <p>Special Requests: " ++ orElse specialRequests "None" ++ "</p>\n" ++
      "        <p>We look forward to hosting you!</p>\n" ++
      "        <br><small>This is an automated email. Please do not reply.</small>" }

/-- What `POST /reservations` takes from outside the repository:
`process.env.EMAIL_USER`, the outcome of `reservation.save()` (`some e`: it
rejects with `e`) and the `err` the Notifier passes to the callback of
`sendMail` (`none`: the send succeeded). -/
structure ReservationEnv where
  emailUser : Header
  saveError : Reservation → Option String
  sendMailError : MailOptions → Option String

/-- The Reservation Store and the messages handed to the Notifier. -/
structure ReservationWorld where
  reservations : List Reservation
  outbox : List MailOptions
deriving DecidableEq, Repr

/-- What `POST /reservations` leaves behind. -/
structure ReservationResult where
  world : ReservationWorld
  response : Response
  log : List LogLine
deriving DecidableEq, Repr

/-- The record built by `new Reservation` (lines 114-124). -/
def newReservation (body : ReservationBody) : Reservation :=
  ⟨body.name, body.email, body.phone, body.date, body.time, body.guests,
    body.specialRequests, body.club, body.clubLocation⟩

/-- The confirmation message of a validated submission (lines 128-139). -/
def confirmationMail (env : ReservationEnv) (body : ReservationBody) : MailOptions :=
  mailOptions env.emailUser body.name body.email body.club body.date body.time
    body.guests body.specialRequests body.clubLocation

/-- The handler of `POST /reservations`. -/
def postReservations (env : ReservationEnv) (w : ReservationWorld) (body : ReservationBody) :
    ReservationResult :=
  if !truthy body.name || !truthy body.email || !truthy body.phone || !truthy body.date ||
      !truthy body.time || !truthy body.guests || !truthy body.club then
    ⟨w, [.status 400, .json [("error", "Missing required fields")]], []⟩
  else
    match env.saveError (newReservation body) with
    | some e =>
      ⟨w, [.status 500, .json [("error", "Server error. Please try again.")]],
        [("Reservation error:", e)]⟩
    | none =>
      ⟨⟨w.reservations ++ [newReservation body], w.outbox ++ [confirmationMail env body]⟩,
        [.status 201, .json [("message", "Reservation successful! Confirmation email sent.")]],
        match env.sendMailError (confirmationMail env body) with
        | some err => [("Email send error:", err)]
        | none => []⟩

/-! ## Session Token Service -/

/-- A decoded session token: the identity claims, issued-at and expiry
(seconds), and the signature. -/
structure SessionToken where
  claims : Claims
  iat : Nat
  exp : Nat
  signature : Nat
deriving DecidableEq, Repr

/-- The keyed signature and the wire format of tokens. -/
structure TokenCodec where
  mac : String → Claims → Nat → Nat → Nat
  encode : SessionToken → String
  decode : String → Option SessionToken

/-- Modelled from the spec: the validity span named by `expiresIn`
(`jsonwebtoken` is not among the sources); `1d` is 24 hours, in seconds. -/
def spanSeconds (expiresIn : String) : Nat :=
  if expiresIn = "1d" then 24 * 60 * 60 else 0

/-- Modelled from the spec: the content of a token issued by the Session
Token Service (`jsonwebtoken` is not among the sources): the identity, the
issue time, the expiry fixed at issuance, and the signature under the secret. -/
def issuedToken (c : TokenCodec) (secret : String) (now : Nat) (payload : Claims)
    (expiresIn : String) : SessionToken :=
  ⟨payload, now, now + spanSeconds expiresIn,
    c.mac secret payload now (now + spanSeconds expiresIn)⟩

/-- Modelled from the spec: `issue` of the Session Token Service
(`jsonwebtoken` is not among the sources): the token string of `issuedToken`. -/
def jwtSign (c : TokenCodec) (secret : String) (now : Nat) (payload : Claims)
    (expiresIn : String) : String :=
  c.encode (issuedToken c secret now payload expiresIn)

/-- Modelled from the spec: `verify` of the Session Token Service
(`jsonwebtoken` is not among the sources): the decoded identity claims if
the signature is valid and the token is not expired, a failure otherwise. -/
def jwtVerify (c : TokenCodec) (secret : String) (now : Nat) (token : String) :
    Except String Claims :=
  match c.decode token with
  | none => .error "jwt malformed"
  | some t =>
    if t.signature ≠ c.mac secret t.claims t.iat t.exp then .error "invalid signature"
    else if t.exp ≤ now then .error "jwt expired"
    else .ok t.claims

/-! ## The spec's words, and fixtures for the concrete instances -/

/-- A field is missing or empty: `undefined`, `null`, or the empty string. -/
def missingOrEmpty (v : JSValue) : Bool :=
  match v with
  | .undefined => true
  | .null => true
  | .str s => decide (s = "")
  | _ => false

/-- The number of characters (Unicode code points) of a password string. -/
def characters (s : String) : Nat :=
  s.data.length

/-- A store with one user, Alice. -/
def aliceStore : List User :=
  [⟨7, .str "Alice", .str "a@x.com", "$2b$10$stored-hash-of-secret1"⟩]

/-- A verifier that accepts two tokens: `good`, for Alice, and `stale`, for a
user who is no longer stored. -/
def demoVerify (token : String) : Except String Claims :=
  if token = "good" then .ok ⟨7, .str "a@x.com", .str "Alice"⟩
  else if token = "stale" then .ok ⟨8, .str "b@x.com", .str "Bob"⟩
  else .error "jwt malformed"

/-- A store whose find-by-id never rejects. -/
def lookupUp (_ : Nat) : Option String :=
  none

/-- A store whose find-by-id rejects, as when the database is unreachable. -/
def lookupDown (_ : Nat) : Option String :=
  some "buffering timed out"

/-- A complete reservation submission. -/
def fullBody : ReservationBody :=
  ⟨.str "Alice", .str "a@x.com", .str "555-0100", .str "2025-01-31", .str "20:00",
    .str "4", .undefined, .str "MOBE", .str "Chandigarh"⟩

/-- The same submission with `guests` missing. -/
def noGuestsBody : ReservationBody :=
  ⟨.str "Alice", .str "a@x.com", .str "555-0100", .str "2025-01-31", .str "20:00",
    .undefined, .undefined, .str "MOBE", .str "Chandigarh"⟩

/-- The same submission with `guests` the JSON number 0. -/
def zeroGuestsBody : ReservationBody :=
  ⟨.str "Alice", .str "a@x.com", .str "555-0100", .str "2025-01-31", .str "20:00",
    .number 0, .undefined, .str "MOBE", .str "Chandigarh"⟩

/-- A store holding one earlier reservation, nothing sent yet. -/
def oneBooking : ReservationWorld :=
  ⟨[newReservation fullBody], []⟩

/-- An environment whose store saves and whose Notifier fails. -/
def mailDownEnv : ReservationEnv :=
  ⟨some "club@x.com", fun _ => none, fun _ => some "ECONNREFUSED"⟩

/-- An environment whose store rejects every save. -/
def storeDownEnv : ReservationEnv :=
  ⟨some "club@x.com", fun _ => some "MongoNetworkError", fun _ => none⟩

/-- A registration environment: a fixed salt, a hash that prefixes the salt,
and a store that saves. -/
def demoRegisterEnv : RegisterEnv :=
  ⟨fun _ => "$2b$10$Nq1", fun password salt => salt ++ "/" ++ password, 8, fun _ => none⟩

/-- A login environment. Its `compare` checks its arguments as `bcrypt.compare`
does: it rejects when the data is `undefined` or `null`, and when it is not a
string; on a string it compares the stored hash with a prefix-hash. -/
def demoLoginEnv : LoginEnv :=
  ⟨fun password hash =>
      match password with
      | .str p => .ok (decide ("$2b$10$stored-hash-of-" ++ p = hash))
      | .undefined => .error "data and hash arguments required"
      | .null => .error "data and hash arguments required"
      | _ => .error "data and hash must be strings",
    fun claims span => jsToString claims.email ++ "/" ++ span, false⟩

/-- The token content issued for Alice at second 1000 under the secret `s3cret`. -/
def aliceToken : SessionToken :=
  ⟨⟨7, .str "a@x.com", .str "Alice"⟩, 1000, 87400, 88413⟩

/-- A codec that knows one token string, the one of `aliceToken`. -/
def demoCodec : TokenCodec :=
  ⟨fun secret claims iat exp => secret.length + claims.id + iat + exp,
    fun t => if t = aliceToken then "eyJhbGljZSJ9" else "",
    fun s => if s = "eyJhbGljZSJ9" then some aliceToken else none⟩

/-! ## Theorems: the Auth Gate -/

theorem protect_of_not_located (verify : String → Except String Claims)
    (findByIdError : Nat → Option String) (users : List User) (req : Request)
    (h : present (locateToken req) = false) :
    protect verify findByIdError users req = reject "/?error=unauthorized" [] := by
  unfold protect
  cases hl : locateToken req with
  | none => rfl
  | some t =>
    rw [hl] at h
    have : t = "" := by simpa [present] using h
    simp [this]

theorem protect_of_located (verify : String → Except String Claims)
    (findByIdError : Nat → Option String) (users : List User) (req : Request) (t : String)
    (h : locateToken req = some t) (ht : t ≠ "") :
    protect verify findByIdError users req =
      match verify t with
      | .error msg => reject "/?error=token_error" [("Authentication error:", msg)]
      | .ok decoded =>
        match findByIdError decoded.id with
        | some msg => reject "/?error=token_error" [("Authentication error:", msg)]
        | none =>
          match findById users decoded.id with
          | none => reject "/?error=invalid_user" []
          | some user => ⟨[], some user.selectNoPassword, true, []⟩ := by
  simp [protect, h, ht]

/-- Every rejection of `protect` is sent with status 302: the `redirect`
replaces the 401 set just before it. -/
theorem sentStatus_reject (url : String) (log : List LogLine) :
    sentStatus (reject url log).response = 302 := by
  rfl

/-- The paths of `protect`: no token located; a token that does not verify; a
verified token whose lookup rejects; a verified token whose id finds no user;
a verified token whose id finds a user. Only the last calls `next`. -/
theorem protect_paths (verify : String → Except String Claims)
    (findByIdError : Nat → Option String) (users : List User) (req : Request) :
    (present (locateToken req) = false →
      protect verify findByIdError users req =
        ⟨[.status 401, .redirect "/?error=unauthorized"], none, false, []⟩) ∧
    (∀ t, locateToken req = some t → t ≠ "" →
      (∀ msg, verify t = .error msg →
        protect verify findByIdError users req =
          ⟨[.status 401, .redirect "/?error=token_error"], none, false,
            [("Authentication error:", msg)]⟩) ∧
      (∀ d msg, verify t = .ok d → findByIdError d.id = some msg →
        protect verify findByIdError users req =
          ⟨[.status 401, .redirect "/?error=token_error"], none, false,
            [("Authentication error:", msg)]⟩) ∧
      (∀ d, verify t = .ok d → findByIdError d.id = none → findById users d.id = none →
        protect verify findByIdError users req =
          ⟨[.status 401, .redirect "/?error=invalid_user"], none, false, []⟩) ∧
      (∀ d u, verify t = .ok d → findByIdError d.id = none → findById users d.id = some u →
        protect verify findByIdError users req =
          ⟨[], some ⟨u.id, u.name, u.email⟩, true, []⟩)) ∧
    ((protect verify findByIdError users req).nextCalled = true →
      ∃ t d u, locateToken req = some t ∧ t ≠ "" ∧ verify t = .ok d ∧
        findByIdError d.id = none ∧ findById users d.id = some u) := by
  refine ⟨fun h => protect_of_not_located verify findByIdError users req h, ?_, ?_⟩
  · intro t h ht
    have hp := protect_of_located verify findByIdError users req t h ht
    refine ⟨?_, ?_, ?_, ?_⟩
    · intro msg hv
      rw [hp, hv]; rfl
    · intro d msg hv he
      rw [hp, hv]; simp only [he]; rfl
    · intro d hv he hf
      rw [hp, hv]; simp only [he, hf]; rfl
    · intro d u hv he hf
      rw [hp, hv]; simp only [he, hf]; rfl
  · intro hn
    cases hl : locateToken req with
    | none =>
      rw [protect_of_not_located verify findByIdError users req (by rw [hl]; rfl)] at hn
      simp [reject] at hn
    | some t =>
      by_cases ht : t = ""
      · rw [protect_of_not_located verify findByIdError users req (by rw [hl, ht]; rfl)] at hn
        simp [reject] at hn
      · rw [protect_of_located verify findByIdError users req t hl ht] at hn
        cases hv : verify t with
        | error msg => rw [hv] at hn; simp [reject] at hn
        | ok d =>
          cases he : findByIdError d.id with
          | some msg => rw [hv] at hn; simp only [he] at hn; simp [reject] at hn
          | none =>
            cases hf : findById users d.id with
            | none => rw [hv] at hn; simp only [he, hf] at hn; simp [reject] at hn
            | some u => exact ⟨t, d, u, rfl, ht, hv, he, hf⟩

/-- C1: the code does not give the rejections of `protect` the status 401.
Against a store holding Alice, a request without a token, one with a token
that does not verify and one with a token of a user who is not stored make the
calls `status(401)` and `redirect` with the three distinct targets, and each is
sent with status 302, which `redirect` puts in place of the 401. Moreover
Alice's valid token is answered with the `token_error` redirect, and `next` is
not called, when the lookup of the user rejects; with a lookup that answers,
the same request is admitted with Alice, without her password, as `req.user`. -/
theorem protect_rejections_sent_as_302 :
    protect demoVerify lookupUp aliceStore ⟨none, some ⟨none⟩⟩ =
      ⟨[.status 401, .redirect "/?error=unauthorized"], none, false, []⟩ ∧
    sentStatus (protect demoVerify lookupUp aliceStore ⟨none, some ⟨none⟩⟩).response = 302 ∧
    protect demoVerify lookupUp aliceStore ⟨some "Bearer forged", none⟩ =
      ⟨[.status 401, .redirect "/?error=token_error"], none, false,
        [("Authentication error:", "jwt malformed")]⟩ ∧
    sentStatus (protect demoVerify lookupUp aliceStore
      ⟨some "Bearer forged", none⟩).response = 302 ∧
    protect demoVerify lookupUp aliceStore ⟨some "Bearer stale", none⟩ =
      ⟨[.status 401, .redirect "/?error=invalid_user"], none, false, []⟩ ∧
    sentStatus (protect demoVerify lookupUp aliceStore
      ⟨some "Bearer stale", none⟩).response = 302 ∧
    protect demoVerify lookupDown aliceStore ⟨none, some ⟨some "good"⟩⟩ =
      ⟨[.status 401, .redirect "/?error=token_error"], none, false,
        [("Authentication error:", "buffering timed out")]⟩ ∧
    protect demoVerify lookupUp aliceStore ⟨none, some ⟨some "good"⟩⟩ =
      ⟨[], some ⟨7, .str "Alice", .str "a@x.com"⟩, true, []⟩ := by
  decide

theorem splitAux_of_no_sep (sep : Char) (cs cur : List Char) (h : sep ∉ cs) :
    splitAux sep cs cur = [cur.reverse ++ cs] := by
  induction cs generalizing cur with
  | nil => simp [splitAux]
  | cons c cs ih =>
    have hc : c ≠ sep := fun e => h (by simp [e])
    have hcs : sep ∉ cs := fun e => h (by simp [e])
    simp [splitAux, hc, ih (c :: cur) hcs]

/-- A header `Bearer <t>` with `t` free of blanks: the located token is `t`,
whatever the cookies. -/
theorem locateToken_bearer (t : String) (cookies : Option Cookies) (h : ' ' ∉ t.data) :
    locateToken ⟨some ("Bearer " ++ t), cookies⟩ = some t := by
  have hd : ("Bearer " ++ t).data =
      'B' :: 'e' :: 'a' :: 'r' :: 'e' :: 'r' :: ' ' :: t.data := by
    rw [String.data_append]; rfl
  have htr : present (some ("Bearer " ++ t)) = true := by
    simp only [present, decide_eq_true_eq]
    intro e
    have := congrArg String.data e
    rw [hd] at this
    simp at this
  have hsw : jsStartsWith ("Bearer " ++ t) "Bearer" = true := by
    simp [jsStartsWith, hd]
  have hsp : jsSplit ("Bearer " ++ t) ' ' = ["Bearer", t] := by
    simp only [jsSplit, hd]
    have : splitAux ' ' ('B' :: 'e' :: 'a' :: 'r' :: 'e' :: 'r' :: ' ' :: t.data) [] =
        ['B', 'e', 'a', 'r', 'e', 'r'] :: splitAux ' ' t.data [] := by
      simp [splitAux]
    rw [this, splitAux_of_no_sep ' ' t.data [] h]
    rfl
  simp only [locateToken, htr, hsw, hsp]
  rfl

/-- A request without a header that starts with `Bearer`: the located token
is the cookie's. -/
theorem locateToken_of_no_bearer_prefix (req : Request)
    (h : ∀ a, req.authorization = some a → jsStartsWith a "Bearer" = false) :
    locateToken req = cookieToken req := by
  unfold locateToken
  cases ha : req.authorization with
  | none => rfl
  | some a => simp [h a ha]

/-- C10: a request whose `Authorization` header is the bare word `Bearer`
carries no bearer token, and its `token` cookie holds a token that is valid for
the stored user Alice; `protect` does not judge it on the cookie: no token is
located and the request is rejected with `/?error=unauthorized`, although the
same cookie without the header is admitted. The same happens for `Bearer`
followed by a blank. -/
theorem protect_bare_bearer_ignores_cookie :
    locateToken ⟨some "Bearer", some ⟨some "good"⟩⟩ = none ∧
    cookieToken ⟨some "Bearer", some ⟨some "good"⟩⟩ = some "good" ∧
    protect demoVerify lookupUp aliceStore ⟨some "Bearer", some ⟨some "good"⟩⟩ =
      ⟨[.status 401, .redirect "/?error=unauthorized"], none, false, []⟩ ∧
    protect demoVerify lookupUp aliceStore ⟨some "Bearer ", some ⟨some "good"⟩⟩ =
      ⟨[.status 401, .redirect "/?error=unauthorized"], none, false, []⟩ ∧
    protect demoVerify lookupUp aliceStore ⟨none, some ⟨some "good"⟩⟩ =
      ⟨[], some ⟨7, .str "Alice", .str "a@x.com"⟩, true, []⟩ := by
  decide

/-! ## Theorems: reservation intake -/

theorem truthy_of_missingOrEmpty (v : JSValue) (h : missingOrEmpty v = true) :
    truthy v = false := by
  cases v <;> simp_all [truthy, missingOrEmpty]

theorem postReservations_of_falsy (env : ReservationEnv) (w : ReservationWorld)
    (body : ReservationBody)
    (h : (!truthy body.name || !truthy body.email || !truthy body.phone || !truthy body.date ||
      !truthy body.time || !truthy body.guests || !truthy body.club) = true) :
    postReservations env w body =
      ⟨w, [.status 400, .json [("error", "Missing required fields")]], []⟩ := by
  unfold postReservations
  rw [if_pos h]

theorem postReservations_of_truthy (env : ReservationEnv) (w : ReservationWorld)
    (body : ReservationBody)
    (h : (!truthy body.name || !truthy body.email || !truthy body.phone || !truthy body.date ||
      !truthy body.time || !truthy body.guests || !truthy body.club) = false) :
    postReservations env w body =
      match env.saveError (newReservation body) with
      | some e =>
        ⟨w, [.status 500, .json [("error", "Server error. Please try again.")]],
          [("Reservation error:", e)]⟩
      | none =>
        ⟨⟨w.reservations ++ [newReservation body], w.outbox ++ [confirmationMail env body]⟩,
          [.status 201, .json [("message", "Reservation successful! Confirmation email sent.")]],
          match env.sendMailError (confirmationMail env body) with
          | some err => [("Email send error:", err)]
          | none => []⟩ := by
  unfold postReservations
  rw [if_neg (by simp [h])]

theorem required_truthy (body : ReservationBody)
    (h : truthy body.name = true ∧ truthy body.email = true ∧ truthy body.phone = true ∧
      truthy body.date = true ∧ truthy body.time = true ∧ truthy body.guests = true ∧
      truthy body.club = true) :
    (!truthy body.name || !truthy body.email || !truthy body.phone || !truthy body.date ||
      !truthy body.time || !truthy body.guests || !truthy body.club) = false := by
  obtain ⟨h1, h2, h3, h4, h5, h6, h7⟩ := h
  simp [h1, h2, h3, h4, h5, h6, h7]

/-- A submission with a falsy required field, of whatever kind (also the
number 0, `false` or `null`), is answered as one with a missing field. -/
theorem reservation_falsy_field_rejected (env : ReservationEnv) (w : ReservationWorld)
    (body : ReservationBody)
    (h : truthy body.name = false ∨ truthy body.email = false ∨ truthy body.phone = false ∨
      truthy body.date = false ∨ truthy body.time = false ∨ truthy body.guests = false ∨
      truthy body.club = false) :
    postReservations env w body =
      ⟨w, [.status 400, .json [("error", "Missing required fields")]], []⟩ := by
  apply postReservations_of_falsy
  simp only [Bool.or_eq_true, Bool.not_eq_true']
  tauto

/-- C2: a reservation submission in which at least one of name, email, phone,
date, time, guests, club is missing or empty, whatever the other fields, is
answered with status 400 and `{ error: 'Missing required fields' }`; the
Reservation Store is unchanged (so is its record count) and no message is
handed to the Notifier. -/
theorem reservation_missing_field_rejected (env : ReservationEnv) (w : ReservationWorld)
    (body : ReservationBody)
    (h : missingOrEmpty body.name = true ∨ missingOrEmpty body.email = true ∨
      missingOrEmpty body.phone = true ∨ missingOrEmpty body.date = true ∨
      missingOrEmpty body.time = true ∨ missingOrEmpty body.guests = true ∨
      missingOrEmpty body.club = true) :
    (postReservations env w body).response =
      [.status 400, .json [("error", "Missing required fields")]] ∧
    (postReservations env w body).world.reservations = w.reservations ∧
    (postReservations env w body).world.reservations.length = w.reservations.length ∧
    (postReservations env w body).world.outbox = w.outbox := by
  have hf : truthy body.name = false ∨ truthy body.email = false ∨
      truthy body.phone = false ∨ truthy body.date = false ∨ truthy body.time = false ∨
      truthy body.guests = false ∨ truthy body.club = false := by
    rcases h with h | h | h | h | h | h | h
    · exact Or.inl (truthy_of_missingOrEmpty _ h)
    · exact Or.inr (Or.inl (truthy_of_missingOrEmpty _ h))
    · exact Or.inr (Or.inr (Or.inl (truthy_of_missingOrEmpty _ h)))
    · exact Or.inr (Or.inr (Or.inr (Or.inl (truthy_of_missingOrEmpty _ h))))
    · exact Or.inr (Or.inr (Or.inr (Or.inr (Or.inl (truthy_of_missingOrEmpty _ h)))))
    · exact Or.inr (Or.inr (Or.inr (Or.inr (Or.inr (Or.inl (truthy_of_missingOrEmpty _ h))))))
    · exact Or.inr (Or.inr (Or.inr (Or.inr (Or.inr (Or.inr (truthy_of_missingOrEmpty _ h))))))
  rw [reservation_falsy_field_rejected env w body hf]
  exact ⟨rfl, rfl, rfl, rfl⟩

/-- C2, at the submission with `guests` missing, against a store holding one
reservation. -/
theorem reservation_missing_field_rejected_witness :
    (postReservations mailDownEnv oneBooking noGuestsBody).response =
      [.status 400, .json [("error", "Missing required fields")]] ∧
    (postReservations mailDownEnv oneBooking noGuestsBody).world.reservations =
      oneBooking.reservations ∧
    (postReservations mailDownEnv oneBooking noGuestsBody).world.reservations.length =
      oneBooking.reservations.length ∧
    (postReservations mailDownEnv oneBooking noGuestsBody).world.outbox = oneBooking.outbox :=
  reservation_missing_field_rejected mailDownEnv oneBooking noGuestsBody (by decide)

/-- C3, as stated, fails: in the submission with `guests` the number 0 the
seven required fields are all present and none is empty, the save would
succeed, and yet the answer is status 400 with `Missing required fields` and
nothing is stored. -/
theorem reservation_zero_guests_counterexample :
    (missingOrEmpty zeroGuestsBody.name = false ∧ missingOrEmpty zeroGuestsBody.email = false ∧
      missingOrEmpty zeroGuestsBody.phone = false ∧ missingOrEmpty zeroGuestsBody.date = false ∧
      missingOrEmpty zeroGuestsBody.time = false ∧
      missingOrEmpty zeroGuestsBody.guests = false ∧
      missingOrEmpty zeroGuestsBody.club = false) ∧
    mailDownEnv.saveError (newReservation zeroGuestsBody) = none ∧
    (postReservations mailDownEnv oneBooking zeroGuestsBody).response =
      [.status 400, .json [("error", "Missing required fields")]] ∧
    (postReservations mailDownEnv oneBooking zeroGuestsBody).world.reservations =
      oneBooking.reservations := by
  decide

/-- C3, amended: a reservation submission whose name, email, phone, date,
time, guests and club are all truthy (present, and none of them the empty
string, the number 0, `false` or `null`), and whose save succeeds, adds exactly
one record to the Reservation Store, carrying the nine submitted fields, and is
answered with status 201 and the success message; the stored records and the
response are the same for every Notifier, whether its send succeeds or fails. -/
theorem reservation_persisted_once (env : ReservationEnv) (w : ReservationWorld)
    (body : ReservationBody)
    (hreq : truthy body.name = true ∧ truthy body.email = true ∧ truthy body.phone = true ∧
      truthy body.date = true ∧ truthy body.time = true ∧ truthy body.guests = true ∧
      truthy body.club = true)
    (hsave : env.saveError ⟨body.name, body.email, body.phone, body.date, body.time,
      body.guests, body.specialRequests, body.club, body.clubLocation⟩ = none) :
    (postReservations env w body).world.reservations =
      w.reservations ++ [⟨body.name, body.email, body.phone, body.date, body.time,
        body.guests, body.specialRequests, body.club, body.clubLocation⟩] ∧
    (postReservations env w body).world.reservations.length = w.reservations.length + 1 ∧
    (postReservations env w body).response =
      [.status 201, .json [("message", "Reservation successful! Confirmation email sent.")]] ∧
    ∀ send : MailOptions → Option String,
      (postReservations ⟨env.emailUser, env.saveError, send⟩ w body).world.reservations =
        (postReservations env w body).world.reservations ∧
      (postReservations ⟨env.emailUser, env.saveError, send⟩ w body).response =
        (postReservations env w body).response := by
  have ht := required_truthy body hreq
  have hsave2 : env.saveError (newReservation body) = none := hsave
  have key : ∀ send : MailOptions → Option String,
      (postReservations ⟨env.emailUser, env.saveError, send⟩ w body).world.reservations =
        w.reservations ++ [newReservation body] ∧
      (postReservations ⟨env.emailUser, env.saveError, send⟩ w body).response =
        [.status 201,
          .json [("message", "Reservation successful! Confirmation email sent.")]] := by
    intro send
    rw [postReservations_of_truthy _ w body ht]
    simp [hsave2]
  have h0 := key env.sendMailError
  refine ⟨h0.1, ?_, h0.2, fun send => ⟨?_, ?_⟩⟩
  · rw [h0.1]; simp
  · rw [(key send).1, h0.1]
  · rw [(key send).2, h0.2]

/-- C3 amended, at a complete submission while the Notifier fails. -/
theorem reservation_persisted_once_witness :
    (postReservations mailDownEnv oneBooking fullBody).world.reservations =
      oneBooking.reservations ++ [newReservation fullBody] ∧
    (postReservations mailDownEnv oneBooking fullBody).response =
      [.status 201, .json [("message", "Reservation successful! Confirmation email sent.")]] ∧
    (postReservations mailDownEnv oneBooking fullBody).log =
      [("Email send error:", "ECONNREFUSED")] :=
  ⟨(reservation_persisted_once mailDownEnv oneBooking fullBody (by decide) rfl).1,
   (reservation_persisted_once mailDownEnv oneBooking fullBody (by decide) rfl).2.2.1,
   by decide⟩

/-- C9: a reservation submission that passes validation but whose save fails
is answered with status 500 and `{ error: 'Server error. Please try again.' }`,
whatever the error the save failed with; the response carries nothing of that
error, and no message is handed to the Notifier. -/
theorem reservation_save_failure_generic (env : ReservationEnv) (w : ReservationWorld)
    (body : ReservationBody) (cause : String)
    (hreq : truthy body.name = true ∧ truthy body.email = true ∧ truthy body.phone = true ∧
      truthy body.date = true ∧ truthy body.time = true ∧ truthy body.guests = true ∧
      truthy body.club = true)
    (hsave : env.saveError ⟨body.name, body.email, body.phone, body.date, body.time,
      body.guests, body.specialRequests, body.club, body.clubLocation⟩ = some cause) :
    (postReservations env w body).response =
      [.status 500, .json [("error", "Server error. Please try again.")]] ∧
    (postReservations env w body).world.outbox = w.outbox ∧
    (postReservations env w body).world.reservations = w.reservations := by
  have hsave2 : env.saveError (newReservation body) = some cause := hsave
  rw [postReservations_of_truthy env w body (required_truthy body hreq)]
  simp [hsave2]

/-- C9, at a complete submission while the store rejects the save. -/
theorem reservation_save_failure_generic_witness :
    (postReservations storeDownEnv oneBooking fullBody).response =
      [.status 500, .json [("error", "Server error. Please try again.")]] ∧
    (postReservations storeDownEnv oneBooking fullBody).world.outbox = oneBooking.outbox ∧
    (postReservations storeDownEnv oneBooking fullBody).world.reservations =
      oneBooking.reservations :=
  reservation_save_failure_generic storeDownEnv oneBooking fullBody "MongoNetworkError"
    (by decide) rfl

/-! ## Theorems: login -/

theorem findOne_eq_none_of_absent (users : List User) (email : JSValue)
    (h : ∀ x ∈ users, x.email ≠ email) : findOne users email = none := by
  simp only [findOne, List.find?_eq_none, decide_eq_true_eq]
  exact h

theorem findOne_of_present (users : List User) (email : JSValue)
    (h : ∃ u ∈ users, u.email = email) : ∃ x, findOne users email = some x := by
  cases hf : findOne users email with
  | some x => exact ⟨x, rfl⟩
  | none =>
    exfalso
    simp only [findOne, List.find?_eq_none, decide_eq_true_eq] at hf
    obtain ⟨u, hu, hue⟩ := h
    exact hf u hu hue

/-- When `bcrypt.compare` answers `false`, the outcome is the one of an
unknown email: status 401, the `login` view, `Invalid email or password`, no
cookie. -/
theorem postLogin_mismatch_eq_absent (env₁ env₂ : LoginEnv) (users₁ users₂ : List User)
    (body₁ body₂ : LoginBody) (u : User)
    (habsent : ∀ x ∈ users₁, x.email ≠ body₁.email)
    (hfound : findOne users₂ body₂.email = some u)
    (hbad : env₂.compare body₂.password u.password = .ok false) :
    postLogin env₁ users₁ body₁ = postLogin env₂ users₂ body₂ ∧
    (postLogin env₁ users₁ body₁).response =
      [.status 401, .render "login" [("error", "Invalid email or password")]] ∧
    setsCookie (postLogin env₂ users₂ body₂).response = false := by
  have h1 : postLogin env₁ users₁ body₁ =
      ⟨[.status 401, .render "login" [("error", "Invalid email or password")]], []⟩ := by
    simp [postLogin, findOne_eq_none_of_absent users₁ body₁.email habsent]
  have h2 : postLogin env₂ users₂ body₂ =
      ⟨[.status 401, .render "login" [("error", "Invalid email or password")]], []⟩ := by
    simp [postLogin, hfound, hbad]
  rw [h1, h2]
  exact ⟨rfl, rfl, rfl⟩

/-- When `bcrypt.compare` rejects for the user found, the answer is status 500
with the server-error message, which no unknown email gets. -/
theorem postLogin_of_compare_rejects (env : LoginEnv) (users : List User) (body : LoginBody)
    (u : User) (e : String) (hfound : findOne users body.email = some u)
    (hrej : env.compare body.password u.password = .error e) :
    postLogin env users body =
      ⟨[.status 500, .render "login" [("error", "Server error occurred. Please try again.")]],
        [("Login error:", e)]⟩ := by
  simp [postLogin, hfound, hrej]

/-- C4: the code lets the response depend on the cause. A login request that
submits no password is answered, for Alice's stored email, with status 500 and
`Server error occurred. Please try again.`, because `bcrypt.compare` rejects
data that is `undefined`, and for an email nobody has with status 401 and
`Invalid email or password`; a wrong password for Alice's email gets the 401
answer as well. No cookie is set in any of the three. -/
theorem login_without_password_reveals_account :
    postLogin demoLoginEnv aliceStore ⟨.str "a@x.com", .undefined⟩ =
      ⟨[.status 500, .render "login" [("error", "Server error occurred. Please try again.")]],
        [("Login error:", "data and hash arguments required")]⟩ ∧
    postLogin demoLoginEnv aliceStore ⟨.str "nobody@x.com", .undefined⟩ =
      ⟨[.status 401, .render "login" [("error", "Invalid email or password")]], []⟩ ∧
    postLogin demoLoginEnv aliceStore ⟨.str "a@x.com", .str "wrong"⟩ =
      ⟨[.status 401, .render "login" [("error", "Invalid email or password")]], []⟩ ∧
    (postLogin demoLoginEnv aliceStore ⟨.str "a@x.com", .undefined⟩).response ≠
      (postLogin demoLoginEnv aliceStore ⟨.str "nobody@x.com", .undefined⟩).response ∧
    setsCookie (postLogin demoLoginEnv aliceStore ⟨.str "a@x.com", .undefined⟩).response =
      false := by
  decide

theorem jwtVerify_issued (c : TokenCodec) (secret : String) (t now : Nat) (payload : Claims)
    (hcodec : c.decode (jwtSign c secret t payload "1d") =
      some (issuedToken c secret t payload "1d")) :
    jwtVerify c secret now (jwtSign c secret t payload "1d") =
      if t + 86400 ≤ now then .error "jwt expired" else .ok payload := by
  have hspan : spanSeconds "1d" = 86400 := by decide
  simp [jwtVerify, hcodec, issuedToken, hspan]

/-- C5: for every stored user and every issue time `t` (in seconds), the token
that `POST /login` signs for the user with the server secret and sets as the
`token` cookie verifies under that secret, at every time before `t + 86400`, to
claims with the user's id, email and name; at every time at or after
`t + 86400` its verification fails, and `protect` rejects every request on which
it locates that token: `next` is not called and, the token being a non-empty
string, the calls are `status(401)` and a redirect to `/?error=token_error`.
The codec is assumed to read back the token it wrote. -/
theorem login_token_valid_one_day (c : TokenCodec) (secret : String)
    (compare : JSValue → String → Except String Bool) (production : Bool) (user : User)
    (t : Nat)
    (hcodec : c.decode (jwtSign c secret t (loginPayload user) "1d") =
      some (issuedToken c secret t (loginPayload user) "1d")) :
    loginToken ⟨compare, jwtSign c secret t, production⟩ user =
      jwtSign c secret t ⟨user.id, user.email, user.name⟩ "1d" ∧
    (∀ users body, findOne users body.email = some user →
      compare body.password user.password = .ok true →
      (postLogin ⟨compare, jwtSign c secret t, production⟩ users body).response =
        [.cookie "token" (loginToken ⟨compare, jwtSign c secret t, production⟩ user)
            ⟨true, production, 86400000, "strict"⟩,
          .status 302, .redirect "/api/dashboard"]) ∧
    (∀ now, now < t + 86400 →
      jwtVerify c secret now (loginToken ⟨compare, jwtSign c secret t, production⟩ user) =
        .ok ⟨user.id, user.email, user.name⟩) ∧
    (∀ now, t + 86400 ≤ now →
      jwtVerify c secret now (loginToken ⟨compare, jwtSign c secret t, production⟩ user) =
        .error "jwt expired" ∧
      ∀ findByIdError users req,
        locateToken req =
          some (loginToken ⟨compare, jwtSign c secret t, production⟩ user) →
        (protect (jwtVerify c secret now) findByIdError users req).nextCalled = false ∧
        (protect (jwtVerify c secret now) findByIdError users req).user = none ∧
        (loginToken ⟨compare, jwtSign c secret t, production⟩ user ≠ "" →
          (protect (jwtVerify c secret now) findByIdError users req).response =
            [.status 401, .redirect "/?error=token_error"])) := by
  have hv := fun now => jwtVerify_issued c secret t now (loginPayload user) hcodec
  refine ⟨rfl, ?_, ?_, ?_⟩
  · intro users body hf hc
    simp [postLogin, hf, hc]
  · intro now hnow
    show jwtVerify c secret now (jwtSign c secret t (loginPayload user) "1d") = _
    rw [hv now, if_neg (by omega)]
    rfl
  · intro now hnow
    have hexp : jwtVerify c secret now (jwtSign c secret t (loginPayload user) "1d") =
        .error "jwt expired" := by
      rw [hv now, if_pos hnow]
    refine ⟨hexp, ?_⟩
    intro findByIdError users req hl
    by_cases hne : loginToken ⟨compare, jwtSign c secret t, production⟩ user = ""
    · have hnl : present (locateToken req) = false := by
        rw [hl, hne]; rfl
      rw [protect_of_not_located _ _ users req hnl]
      exact ⟨rfl, rfl, fun h => absurd hne h⟩
    · rw [protect_of_located _ _ users req _ hl hne]
      have hexp2 : jwtVerify c secret now
          (loginToken ⟨compare, jwtSign c secret t, production⟩ user) =
          .error "jwt expired" := hexp
      rw [hexp2]
      exact ⟨rfl, rfl, fun _ => rfl⟩

/-- C5, at the token issued for Alice at second 1000: it verifies at second
87399, and at second 87400 it fails and `protect` rejects the cookie holding it. -/
theorem login_token_valid_one_day_witness :
    jwtVerify demoCodec "s3cret" 87399
      (loginToken ⟨demoLoginEnv.compare, jwtSign demoCodec "s3cret" 1000, false⟩
        ⟨7, .str "Alice", .str "a@x.com", "$2b$10$stored-hash-of-secret1"⟩) =
      .ok ⟨7, .str "a@x.com", .str "Alice"⟩ ∧
    jwtVerify demoCodec "s3cret" 87400
      (loginToken ⟨demoLoginEnv.compare, jwtSign demoCodec "s3cret" 1000, false⟩
        ⟨7, .str "Alice", .str "a@x.com", "$2b$10$stored-hash-of-secret1"⟩) =
      .error "jwt expired" ∧
    (protect (jwtVerify demoCodec "s3cret" 87400) lookupUp aliceStore
      ⟨none, some ⟨some "eyJhbGljZSJ9"⟩⟩).response =
      [.status 401, .redirect "/?error=token_error"] :=
  have h := login_token_valid_one_day demoCodec "s3cret" demoLoginEnv.compare false
    ⟨7, .str "Alice", .str "a@x.com", "$2b$10$stored-hash-of-secret1"⟩ 1000 rfl
  ⟨h.2.2.1 87399 (by decide), (h.2.2.2 87400 (by decide)).1,
    ((h.2.2.2 87400 (by decide)).2 lookupUp aliceStore ⟨none, some ⟨some "eyJhbGljZSJ9"⟩⟩
      (by decide)).2.2 (by decide)⟩

/-! ## Theorems: registration -/

theorem postRegister_of_unchecked (env : RegisterEnv) (users : List User) (body : RegisterBody)
    (h : truthy body.name = false ∨ truthy body.email = false ∨ truthy body.password = false) :
    postRegister env users body =
      ⟨users, [.status 400, .render "register" [("error", "All fields are required")]], []⟩ := by
  unfold postRegister
  rw [if_pos]
  simp only [Bool.or_eq_true, Bool.not_eq_true']
  tauto

theorem postRegister_of_short (env : RegisterEnv) (users : List User) (body : RegisterBody)
    (hn : truthy body.name = true) (he : truthy body.email = true)
    (hp : truthy body.password = true) (hs : lengthBelow body.password 6 = true) :
    postRegister env users body =
      ⟨users, [.status 400,
        .render "register" [("error", "Password must be at least 6 characters long")]],
        []⟩ := by
  unfold postRegister
  rw [if_neg (by simp [hn, he, hp]), if_pos hs]

theorem postRegister_of_checked (env : RegisterEnv) (users : List User) (body : RegisterBody)
    (hn : truthy body.name = true) (he : truthy body.email = true)
    (hp : truthy body.password = true) (hs : lengthBelow body.password 6 = false) :
    postRegister env users body =
      match findOne users body.email with
      | some _ =>
        ⟨users, [.status 400,
          .render "register" [("error", "User already exists with this email")]], []⟩
      | none =>
        match body.password with
        | .str password =>
          match env.saveError
              ⟨env.newId, body.name, body.email, env.hash password (env.genSalt 10)⟩ with
          | some e =>
            ⟨users, [.status 500,
              .render "register" [("error", "Server error occurred. Please try again.")]],
              [("Registration error:", e)]⟩
          | none =>
            ⟨users ++ [⟨env.newId, body.name, body.email,
                env.hash password (env.genSalt 10)⟩],
              [.status 201,
                .render "login" [("success", "Registration successful! Please login.")]], []⟩
        | _ =>
          ⟨users, [.status 500,
            .render "register" [("error", "Server error occurred. Please try again.")]],
            [("Registration error:", "data must be a string or Buffer and salt must " ++
              "either be a salt string or a number of rounds")]⟩ := by
  unfold postRegister
  rw [if_neg (by simp [hn, he, hp]), if_neg (by simp [hs])]

theorem postRegister_users (env : RegisterEnv) (users : List User) (body : RegisterBody) :
    (postRegister env users body).users = users ∨
    (findOne users body.email = none ∧
      ∃ hashed, (postRegister env users body).users =
        users ++ [⟨env.newId, body.name, body.email, hashed⟩]) := by
  by_cases hn : truthy body.name = true
  · by_cases he : truthy body.email = true
    · by_cases hp : truthy body.password = true
      · by_cases hs : lengthBelow body.password 6 = true
        · left; rw [postRegister_of_short env users body hn he hp hs]
        · rw [postRegister_of_checked env users body hn he hp (by simpa using hs)]
          cases hf : findOne users body.email with
          | some x => left; rfl
          | none =>
            cases hpw : body.password with
            | str password =>
              cases hsv : env.saveError
                  ⟨env.newId, body.name, body.email, env.hash password (env.genSalt 10)⟩ with
              | some e => left; simp [hsv]
              | none => right; exact ⟨rfl, env.hash password (env.genSalt 10), by simp [hsv]⟩
            | undefined => left; rfl
            | null => left; rfl
            | bool b => left; rfl
            | number n => left; rfl
            | object l t => left; rfl
      · left; rw [postRegister_of_unchecked env users body (by simp_all)]
    · left; rw [postRegister_of_unchecked env users body (by simp_all)]
  · left; rw [postRegister_of_unchecked env users body (by simp_all)]

theorem truthy_str (s : String) (h : s ≠ "") : truthy (.str s) = true := by
  simp [truthy, h]

theorem lengthBelow_str (s : String) (k : Nat) :
    lengthBelow (.str s) k = decide (jsLength s < k) := by
  rfl

/-- C6, as stated, fails: the password of three emoji has 3 characters, fewer
than 6, and `length` 6; the registration is answered with status 201 and the
user is stored. -/
theorem register_three_emoji_counterexample :
    characters "😀😀😀" = 3 ∧ jsLength "😀😀😀" = 6 ∧
    (postRegister demoRegisterEnv aliceStore
      ⟨.str "Bob", .str "b@x.com", .str "😀😀😀"⟩).response =
      [.status 201, .render "login" [("success", "Registration successful! Please login.")]] ∧
    (postRegister demoRegisterEnv aliceStore
      ⟨.str "Bob", .str "b@x.com", .str "😀😀😀"⟩).users =
      aliceStore ++ [⟨8, .str "Bob", .str "b@x.com", "$2b$10$Nq1/😀😀😀"⟩] := by
  decide

/-- C6, amended: a registration attempt whose password is a string of fewer
than 6 UTF-16 code units (the unit of a JavaScript string's `length`, in which
a character outside the Basic Multilingual Plane counts twice), or whose name,
email or password is missing or empty, is answered with status 400 and a
validation error on the `register` view, and the Credential Store is unchanged:
no user is persisted. -/
theorem register_invalid_rejected (env : RegisterEnv) (users : List User) (body : RegisterBody)
    (h : missingOrEmpty body.name = true ∨ missingOrEmpty body.email = true ∨
      missingOrEmpty body.password = true ∨
      ∃ p, body.password = .str p ∧ jsLength p < 6) :
    (postRegister env users body).users = users ∧
    ((postRegister env users body).response =
        [.status 400, .render "register" [("error", "All fields are required")]] ∨
      (postRegister env users body).response =
        [.status 400,
          .render "register" [("error", "Password must be at least 6 characters long")]]) := by
  by_cases hc : truthy body.name = true ∧ truthy body.email = true ∧
      truthy body.password = true
  · obtain ⟨hn, he, hp⟩ := hc
    have hs : lengthBelow body.password 6 = true := by
      rcases h with h | h | h | ⟨p, hpw, hlt⟩
      · rw [truthy_of_missingOrEmpty _ h] at hn; exact absurd hn (by decide)
      · rw [truthy_of_missingOrEmpty _ h] at he; exact absurd he (by decide)
      · rw [truthy_of_missingOrEmpty _ h] at hp; exact absurd hp (by decide)
      · rw [hpw, lengthBelow_str]; simpa using hlt
    rw [postRegister_of_short env users body hn he hp hs]
    exact ⟨rfl, Or.inr rfl⟩
  · have hf : truthy body.name = false ∨ truthy body.email = false ∨
        truthy body.password = false := by
      by_contra hcon
      simp only [not_or, Bool.not_eq_false] at hcon
      exact hc hcon
    rw [postRegister_of_unchecked env users body hf]
    exact ⟨rfl, Or.inl rfl⟩

/-- C6 amended, at a registration with the five-unit password `abcde`. -/
theorem register_invalid_rejected_witness :
    (postRegister demoRegisterEnv aliceStore
      ⟨.str "Bob", .str "b@x.com", .str "abcde"⟩).users = aliceStore ∧
    ((postRegister demoRegisterEnv aliceStore
        ⟨.str "Bob", .str "b@x.com", .str "abcde"⟩).response =
        [.status 400, .render "register" [("error", "All fields are required")]] ∨
      (postRegister demoRegisterEnv aliceStore
        ⟨.str "Bob", .str "b@x.com", .str "abcde"⟩).response =
        [.status 400,
          .render "register" [("error", "Password must be at least 6 characters long")]]) :=
  register_invalid_rejected demoRegisterEnv aliceStore
    ⟨.str "Bob", .str "b@x.com", .str "abcde"⟩
    (Or.inr (Or.inr (Or.inr ⟨"abcde", rfl, by decide⟩)))

theorem postRegister_of_valid (env : RegisterEnv) (users : List User)
    (name email password : String) (hn : name ≠ "") (he : email ≠ "")
    (hp : 6 ≤ jsLength password) :
    postRegister env users ⟨.str name, .str email, .str password⟩ =
      match findOne users (.str email) with
      | some _ =>
        ⟨users, [.status 400,
          .render "register" [("error", "User already exists with this email")]], []⟩
      | none =>
        match env.saveError
            ⟨env.newId, .str name, .str email, env.hash password (env.genSalt 10)⟩ with
        | some e =>
          ⟨users, [.status 500,
            .render "register" [("error", "Server error occurred. Please try again.")]],
            [("Registration error:", e)]⟩
        | none =>
          ⟨users ++ [⟨env.newId, .str name, .str email,
              env.hash password (env.genSalt 10)⟩],
            [.status 201,
              .render "login" [("success", "Registration successful! Please login.")]],
            []⟩ := by
  have hpe : password ≠ "" := by
    intro h
    rw [h] at hp
    exact absurd hp (by decide)
  rw [postRegister_of_checked env users ⟨.str name, .str email, .str password⟩
    (truthy_str name hn) (truthy_str email he) (truthy_str password hpe)
    (by rw [lengthBelow_str]; simp; omega)]

/-- C8: a registration with a non-empty name and email, a password of at
least 6 characters (UTF-16 code units), an email no stored user has, and a
save that succeeds adds exactly one user to the Credential Store: it has the
submitted name and email, and its password field is `bcrypt.hash` of the
submitted password under the salt `bcrypt.genSalt(10)` produced for this
request (so it differs from the plaintext whenever that hash does). The
response is status 201 with the `login` view and the success message; it sets
no cookie, and the handler has no token signer to call. -/
theorem register_persists_hashed (env : RegisterEnv) (users : List User)
    (name email password : String) (hn : name ≠ "") (he : email ≠ "")
    (hp : 6 ≤ jsLength password) (hfresh : ∀ u ∈ users, u.email ≠ .str email)
    (hsave : env.saveError
      ⟨env.newId, .str name, .str email, env.hash password (env.genSalt 10)⟩ = none) :
    (postRegister env users ⟨.str name, .str email, .str password⟩).users =
      users ++ [⟨env.newId, .str name, .str email, env.hash password (env.genSalt 10)⟩] ∧
    (postRegister env users ⟨.str name, .str email, .str password⟩).users.length =
      users.length + 1 ∧
    (∀ u, (postRegister env users ⟨.str name, .str email, .str password⟩).users =
        users ++ [u] →
      u.name = .str name ∧ u.email = .str email ∧
      u.password = env.hash password (env.genSalt 10) ∧
      (env.hash password (env.genSalt 10) ≠ password → u.password ≠ password)) ∧
    (postRegister env users ⟨.str name, .str email, .str password⟩).response =
      [.status 201, .render "login" [("success", "Registration successful! Please login.")]] ∧
    setsCookie (postRegister env users ⟨.str name, .str email, .str password⟩).response =
      false := by
  have hf : findOne users (.str email) = none :=
    findOne_eq_none_of_absent users (.str email) hfresh
  have key : postRegister env users ⟨.str name, .str email, .str password⟩ =
      ⟨users ++ [⟨env.newId, .str name, .str email, env.hash password (env.genSalt 10)⟩],
        [.status 201, .render "login" [("success", "Registration successful! Please login.")]],
        []⟩ := by
    rw [postRegister_of_valid env users name email password hn he hp]
    simp [hf, hsave]
  rw [key]
  refine ⟨rfl, by simp, ?_, rfl, rfl⟩
  intro u hu
  have hu2 : u = ⟨env.newId, .str name, .str email, env.hash password (env.genSalt 10)⟩ := by
    have := List.append_cancel_left hu
    simpa using this.symm
  subst hu2
  exact ⟨rfl, rfl, rfl, fun h => h⟩

/-- C8, at the registration of Bob with the password `secret2` into a store
holding Alice. -/
theorem register_persists_hashed_witness :
    (postRegister demoRegisterEnv aliceStore
      ⟨.str "Bob", .str "b@x.com", .str "secret2"⟩).users =
      aliceStore ++ [⟨8, .str "Bob", .str "b@x.com", "$2b$10$Nq1/secret2"⟩] ∧
    (postRegister demoRegisterEnv aliceStore
      ⟨.str "Bob", .str "b@x.com", .str "secret2"⟩).response =
      [.status 201, .render "login" [("success", "Registration successful! Please login.")]] :=
  have h := register_persists_hashed demoRegisterEnv aliceStore "Bob" "b@x.com" "secret2"
    (by decide) (by decide) (by decide) (by decide) rfl
  ⟨h.1, h.2.2.2.1⟩

/-- C7, as stated, fails: Alice's email is in the store, and a registration
with that email and the three-character password `abc` is not answered with
`User already exists with this email` but with the password-length error. -/
theorem register_duplicate_message_counterexample :
    (⟨7, .str "Alice", .str "a@x.com", "$2b$10$stored-hash-of-secret1"⟩ : User) ∈ aliceStore ∧
    (postRegister demoRegisterEnv aliceStore
      ⟨.str "Alice", .str "a@x.com", .str "abc"⟩).response =
      [.status 400,
        .render "register" [("error", "Password must be at least 6 characters long")]] ∧
    (postRegister demoRegisterEnv aliceStore
      ⟨.str "Alice", .str "a@x.com", .str "abc"⟩).response ≠
      [.status 400, .render "register" [("error", "User already exists with this email")]] := by
  decide

/-- C7, amended: registration keeps emails unique: if no two stored users
share an email before a request to `POST /register`, none do afterwards. When
the submitted email is already in the store, the request is answered with
status 400 on the `register` view and the store is unchanged, so repeating the
request any number of times, in any environments, adds no user. The error is
`All fields are required` when the name, the email or the password is falsy,
`Password must be at least 6 characters long` when the three are truthy and the
password's `length` is below 6, and `User already exists with this email` when
the request passes both checks. -/
theorem register_keeps_emails_unique (env : RegisterEnv) (users : List User)
    (body : RegisterBody) :
    ((users.map User.email).Nodup →
      ((postRegister env users body).users.map User.email).Nodup) ∧
    ((∃ u ∈ users, u.email = body.email) →
      (postRegister env users body).users = users ∧
      (postRegister env users body).response =
        [.status 400, .render "register" [("error",
          if truthy body.name = false ∨ truthy body.email = false ∨
              truthy body.password = false then
            "All fields are required"
          else if lengthBelow body.password 6 = true then
            "Password must be at least 6 characters long"
          else "User already exists with this email")]] ∧
      ∀ envs : List RegisterEnv,
        envs.foldl (fun us env' => (postRegister env' us body).users) users = users) := by
  constructor
  · intro hnd
    rcases postRegister_users env users body with h | ⟨hf, hashed, h⟩
    · rw [h]; exact hnd
    · rw [h]
      simp only [findOne, List.find?_eq_none, decide_eq_true_eq] at hf
      simp only [List.map_append, List.map_cons, List.map_nil]
      rw [List.nodup_append]
      refine ⟨hnd, List.nodup_singleton _, ?_⟩
      intro a ha hb
      simp only [List.mem_singleton] at hb
      subst hb
      obtain ⟨x, hx, hxe⟩ := List.mem_map.mp ha
      exact hf x hx hxe
  · intro hpres
    have key : ∀ env' : RegisterEnv,
        postRegister env' users body =
          ⟨users, [.status 400, .render "register" [("error",
            if truthy body.name = false ∨ truthy body.email = false ∨
                truthy body.password = false then
              "All fields are required"
            else if lengthBelow body.password 6 = true then
              "Password must be at least 6 characters long"
            else "User already exists with this email")]], []⟩ := by
      intro env'
      by_cases hc : truthy body.name = false ∨ truthy body.email = false ∨
          truthy body.password = false
      · rw [if_pos hc, postRegister_of_unchecked env' users body hc]
      · rw [if_neg hc]
        have hc2 : truthy body.name = true ∧ truthy body.email = true ∧
            truthy body.password = true := by
          simpa only [not_or, Bool.not_eq_false] using hc
        by_cases hs : lengthBelow body.password 6 = true
        · rw [if_pos hs, postRegister_of_short env' users body hc2.1 hc2.2.1 hc2.2.2 hs]
        · rw [if_neg hs, postRegister_of_checked env' users body hc2.1 hc2.2.1 hc2.2.2
            (by simpa using hs)]
          obtain ⟨x, hx⟩ := findOne_of_present users body.email hpres
          rw [hx]
    refine ⟨by rw [key env], by rw [key env], ?_⟩
    intro envs
    induction envs with
    | nil => rfl
    | cons env' rest ih =>
      simp only [List.foldl_cons]
      rw [key env']
      exact ih

/-- C7 amended, at two registrations with Alice's email: one with a valid name
and password, one with the password `abc`. -/
theorem register_keeps_emails_unique_witness :
    ((postRegister demoRegisterEnv aliceStore
      ⟨.str "Alice", .str "a@x.com", .str "secret1"⟩).users.map User.email).Nodup ∧
    (postRegister demoRegisterEnv aliceStore
      ⟨.str "Alice", .str "a@x.com", .str "secret1"⟩).users = aliceStore ∧
    (postRegister demoRegisterEnv aliceStore
      ⟨.str "Alice", .str "a@x.com", .str "secret1"⟩).response =
      [.status 400, .render "register" [("error", "User already exists with this email")]] ∧
    (postRegister demoRegisterEnv aliceStore
      ⟨.str "Alice", .str "a@x.com", .str "abc"⟩).response =
      [.status 400,
        .render "register" [("error", "Password must be at least 6 characters long")]] :=
  have h := register_keeps_emails_unique demoRegisterEnv aliceStore
    ⟨.str "Alice", .str "a@x.com", .str "secret1"⟩
  have h2 := h.2 (by decide)
  have h3 := (register_keeps_emails_unique demoRegisterEnv aliceStore
    ⟨.str "Alice", .str "a@x.com", .str "abc"⟩).2 (by decide)
  ⟨h.1 (by decide), h2.1, h2.2.1, h3.2.1⟩

end FEEClub
